import Mathlib

/-!
Shallow embedding of the weather MCP server (NestJS HTTP router in
`src/mcp/mcp.service.ts` plus the weather service in
`src/weather/weather.service.ts`, and the stdio-channel tool handler in
`src/mcp-stdio.ts`).  JavaScript `undefined` is modelled by `Option`,
thrown exceptions / rejected promises by `Except Exn`, and the untyped
parameter bags by option-field records restricted to the keys the code
actually reads.  The async handlers are modelled so that a rejected
promise returned from the dispatch `try` block propagates (the source
returns the promises of `handleToolsCall` / `handlePromptsGet` without
awaiting them, so their rejections bypass the top-level `catch`).
-/

namespace WeatherMCP

/-- A JSON-RPC correlation id: the source declares `id?: string | number`. -/
inductive JsonId where
  | str (s : String)
  | num (n : Int)
deriving DecidableEq

/-- A thrown JavaScript exception / rejected promise.  `typeError` stands for
the TypeError raised when a property of `undefined` is accessed,
`badRequest` for the `BadRequestException` thrown by the weather service,
`jsError` for a plain `Error`.  Handlers only ever observe `.message`. -/
inductive Exn where
  | typeError (msg : String)
  | badRequest (msg : String)
  | jsError (msg : String)
deriving DecidableEq

/-- `error.message` as read by the catch blocks. -/
def Exn.message : Exn → String
  | .typeError m => m
  | .badRequest m => m
  | .jsError m => m

/-- The untyped `arguments` bag, restricted to the keys the handlers read
(`args.city`, `args.units`, `args.cities`, `args.travel_date`,
`args.city1`, `args.city2`); a missing key reads as `undefined`. -/
structure ArgsBag where
  city : Option String := none
  units : Option String := none
  cities : Option String := none
  travel_date : Option String := none
  city1 : Option String := none
  city2 : Option String := none
deriving DecidableEq

/-- The untyped `request.params` object: the handlers destructure
`{ name, arguments: args }` out of it. -/
structure ParamsObj where
  name : Option String := none
  arguments : Option ArgsBag := none
deriving DecidableEq

/-- `MCPRequest` from `mcp.types.ts`: `{jsonrpc, id?, method, params?}`. -/
structure MCPRequest where
  jsonrpc : String := "2.0"
  id : Option JsonId := none
  method : String
  params : Option ParamsObj := none
deriving DecidableEq

/-- `MCPError` from `mcp.types.ts` (the optional `data` field is never set
anywhere in the source, so it is omitted). -/
structure MCPError where
  code : Int
  message : String
deriving DecidableEq

/-- `{listChanged?: boolean}` capability flag. -/
structure CapabilityFlag where
  listChanged : Option Bool := none
deriving DecidableEq

/-- `MCPServerCapabilities` from `mcp.types.ts`; `resources` is declared in
the interface but never produced by `getServerCapabilities`. -/
structure ServerCapabilities where
  tools : Option CapabilityFlag := none
  resources : Option CapabilityFlag := none
  prompts : Option CapabilityFlag := none
deriving DecidableEq

/-- The static `serverInfo` object. -/
structure ServerInfo where
  name : String
  version : String
deriving DecidableEq

/-- One property of the tool input schema (the `city` / `units` entries). -/
structure PropertySchema where
  type : String
  description : String
  enum : Option (List String) := none
  default : Option String := none
deriving DecidableEq

/-- The JSON-schema-shaped `inputSchema` of a tool. -/
structure InputSchema where
  type : String
  properties : List (String × PropertySchema)
  required : List String
deriving DecidableEq

/-- `MCPTool` descriptor. -/
structure MCPTool where
  name : String
  description : String
  inputSchema : InputSchema
deriving DecidableEq

/-- One named argument of a prompt descriptor. -/
structure PromptArgDescriptor where
  name : String
  description : String
  required : Bool
deriving DecidableEq

/-- `MCPPrompt` descriptor. -/
structure MCPPrompt where
  name : String
  description : String
  arguments : List PromptArgDescriptor
deriving DecidableEq

/-- A `{type: 'text', text}` block (used both for tool-call content items
and for prompt message contents, which have the same shape). -/
structure TextContent where
  type : String
  text : String
deriving DecidableEq

/-- `MCPPromptMessage`: `{role, content}`. -/
structure MCPPromptMessage where
  role : String
  content : TextContent
deriving DecidableEq

/-- The `result: any` payload of a response, split by the shapes the five
handlers actually construct. -/
inductive ResultPayload where
  | initResult (protocolVersion : String) (capabilities : ServerCapabilities)
      (serverInfo : ServerInfo)
  | toolsList (tools : List MCPTool)
  | toolCallResult (content : List TextContent)
  | promptsList (prompts : List MCPPrompt)
  | promptResult (description : String) (messages : List MCPPromptMessage)
deriving DecidableEq

/-- `MCPResponse` from `mcp.types.ts`: `{jsonrpc, id?, result?, error?}`. -/
structure MCPResponse where
  jsonrpc : String
  id : Option JsonId := none
  result : Option ResultPayload := none
  error : Option MCPError := none
deriving DecidableEq

/-- The normalized weather record (`WeatherData` in `weather.types.ts`).
`windSpeed` carries the decimal rendering of the JS number (the only use
of the field is string interpolation); `visibility` is in metres;
`timestamp` carries the ISO rendering of the `Date`. -/
structure WeatherData where
  city : String
  country : String
  temperature : Int
  feelsLike : Int
  humidity : Int
  pressure : Int
  description : String
  windSpeed : String
  windDirection : Int
  visibility : Nat
  units : String
  timestamp : String
deriving DecidableEq

/-- The weather service environment: the configured API key (`'demo-key'`
when `OPENWEATHER_API_KEY` is absent), the current clock rendered as the
ISO timestamp `new Date()` would produce, and the non-demo network path
(`axios.get` + `transformWeatherData` + its error mapping) as an oracle —
no claim exercises that path. -/
structure Env where
  apiKey : String
  now : String
  api : String → String → Except Exn WeatherData

/-- JavaScript `v || d` for an optional string: `undefined` and the empty
string are falsy. -/
def jsOrStr (v : Option String) (d : String) : String :=
  match v with
  | none => d
  | some s => if s = "" then d else s

/-- `String.prototype.trim`: strip leading and trailing whitespace. -/
def jsTrim (s : String) : String :=
  String.mk (((s.data.dropWhile Char.isWhitespace).reverse.dropWhile
    Char.isWhitespace).reverse)

/-- `city.charAt(0).toUpperCase() + city.slice(1).toLowerCase()` (cities in
the claims are ASCII, where `Char.toUpper`/`Char.toLower` agree with JS). -/
def jsCapitalizeCity (city : String) : String :=
  match city.data with
  | [] => ""
  | c :: cs => String.mk (c.toUpper :: cs.map Char.toLower)

/-- `String.prototype.split(',')` (non-empty separator). -/
def splitCommaAux : List Char → List Char → List String
  | [], acc => [String.mk acc.reverse]
  | c :: cs, acc =>
    if c = ',' then String.mk acc.reverse :: splitCommaAux cs []
    else splitCommaAux cs (c :: acc)

/-- `s.split(',')`. -/
def jsSplitComma (s : String) : List String := splitCommaAux s.data []

/-- `getMockWeatherData(city, units)` from `weather.service.ts` (the
`timestamp: new Date()` field reads the environment clock). -/
def getMockWeatherData (env : Env) (city : String) (units : String) :
    WeatherData :=
  let isMetric := units = "metric"
  { city := jsCapitalizeCity city
    country := "XX"
    temperature := if isMetric then 22 else 72
    feelsLike := if isMetric then 24 else 75
    humidity := 65
    pressure := 1013
    description := "partly cloudy"
    windSpeed := if isMetric then "5.2" else "11.6"
    windDirection := 180
    visibility := 10000
    units := units
    timestamp := env.now }

/-- `getWeatherByCity(city, units)` from `weather.service.ts`.  The `city`
argument is `Option String` because `handleToolsCall` passes `args.city`,
which may be `undefined`; `!city || city.trim().length === 0` rejects
`undefined` and empty/whitespace-only strings.  The stdio variant in
`mcp-stdio.ts` is line-identical except that it throws a plain `Error`
instead of a `BadRequestException`; both surface the same `.message`. -/
def getWeatherByCity (env : Env) (city : Option String) (units : String) :
    Except Exn WeatherData :=
  match city with
  | none => .error (.badRequest "City name is required")
  | some c =>
    if c = "" ∨ (jsTrim c).length = 0 then
      .error (.badRequest "City name is required")
    else if env.apiKey = "demo-key" then
      .ok (getMockWeatherData env c units)
    else
      env.api c units

/-- Everything `formatWeatherForDisplay` prints before the timestamp.  The
`visibility / 1000` interpolation prints the kilometre value; `Nat`
division agrees with the JS float division on the values the provider and
the mock supply (multiples of 1000, mock: 10000 → `10`). -/
def formatWeatherHead (w : WeatherData) : String :=
  let tempUnit := if w.units = "metric" then "°C" else "°F"
  let speedUnit := if w.units = "metric" then "m/s" else "mph"
  "Weather in " ++ w.city ++ ", " ++ w.country ++ ":" ++
  "\nTemperature: " ++ toString w.temperature ++ tempUnit ++
    " (feels like " ++ toString w.feelsLike ++ tempUnit ++ ")" ++
  "\nCondition: " ++ w.description ++
  "\nHumidity: " ++ toString w.humidity ++ "%" ++
  "\nPressure: " ++ toString w.pressure ++ " hPa" ++
  "\nWind: " ++ w.windSpeed ++ " " ++ speedUnit ++ " at " ++
    toString w.windDirection ++ "°" ++
  "\nVisibility: " ++ toString (w.visibility / 1000) ++ " km" ++
  "\nLast updated: "

/-- `formatWeatherForDisplay(weather)` from `weather.service.ts`. -/
def formatWeatherForDisplay (w : WeatherData) : String :=
  formatWeatherHead w ++ w.timestamp

/-- `getServerCapabilities()` from `mcp.service.ts`. -/
def getServerCapabilities : ServerCapabilities :=
  { tools := some { listChanged := some true }
    prompts := some { listChanged := some true } }

/-- `getAvailableTools()` from `mcp.service.ts`: the one-element tool
catalog. -/
def getAvailableTools : List MCPTool :=
  [ { name := "get-weather"
      description := "Get current weather information for a city"
      inputSchema :=
        { type := "object"
          properties :=
            [ ("city",
               { type := "string"
                 description := "The city name to get weather for" }),
              ("units",
               { type := "string"
                 enum := some ["metric", "imperial"]
                 description :=
                   "Temperature units (metric for Celsius, imperial for Fahrenheit)"
                 default := some "metric" }) ]
          required := ["city"] } } ]

/-- `getAvailablePrompts()` from `mcp.service.ts`: the three-element prompt
catalog. -/
def getAvailablePrompts : List MCPPrompt :=
  [ { name := "weather-report"
      description :=
        "Generate a comprehensive weather report for a city with analysis and recommendations"
      arguments :=
        [ { name := "city"
            description := "The city to get weather for"
            required := true },
          { name := "units"
            description := "Temperature units (metric or imperial)"
            required := false } ] },
    { name := "travel-weather-advice"
      description := "Get weather-based travel advice for multiple cities"
      arguments :=
        [ { name := "cities"
            description := "Comma-separated list of cities to check"
            required := true },
          { name := "travel_date"
            description := "Intended travel date (for context)"
            required := false } ] },
    { name := "weather-comparison"
      description := "Compare weather conditions between two cities"
      arguments :=
        [ { name := "city1"
            description := "First city to compare"
            required := true },
          { name := "city2"
            description := "Second city to compare"
            required := true } ] } ]

/-- `createErrorResponse(id, code, message)` from `mcp.service.ts`. -/
def createErrorResponse (id : Option JsonId) (code : Int) (message : String) :
    MCPResponse :=
  { jsonrpc := "2.0"
    id := id
    error := some { code := code, message := message } }

/-- `handleInitialize(request)` from `mcp.service.ts`. -/
def handleInit (req : MCPRequest) : MCPResponse :=
  { jsonrpc := "2.0"
    id := req.id
    result := some (.initResult "2024-11-05" getServerCapabilities
      { name := "weather-mcp-server", version := "1.0.0" }) }

/-- `handleToolsList(request)` from `mcp.service.ts`. -/
def handleToolsList (req : MCPRequest) : MCPResponse :=
  { jsonrpc := "2.0"
    id := req.id
    result := some (.toolsList getAvailableTools) }

/-- `handlePromptsList(request)` from `mcp.service.ts`. -/
def handlePromptsList (req : MCPRequest) : MCPResponse :=
  { jsonrpc := "2.0"
    id := req.id
    result := some (.promptsList getAvailablePrompts) }

/-- The `await this.weatherService.getWeatherByCity(args.city,
args.units || 'metric')` step of the tool-call try block: reading
`args.city` throws a TypeError when `arguments` is `undefined`. -/
def toolCallFetch (env : Env) (args : Option ArgsBag) :
    Except Exn WeatherData :=
  match args with
  | none =>
    .error (.typeError "Cannot read properties of undefined (reading city)")
  | some a => getWeatherByCity env a.city (jsOrStr a.units "metric")

/-- `handleToolsCall(request)` from `mcp.service.ts`.  Destructuring
`request.params` throws when `params` is `undefined`; inside the
`get-weather` branch the try/catch converts any failure into a `-32603`
envelope carrying the failure message; any other tool name yields
`-32602` / `"Unknown tool"`. -/
def handleToolsCall (env : Env) (req : MCPRequest) :
    Except Exn MCPResponse :=
  match req.params with
  | none =>
    .error (.typeError "Cannot destructure property name of undefined")
  | some p =>
    if p.name = some "get-weather" then
      match toolCallFetch env p.arguments with
      | .ok weather =>
        .ok { jsonrpc := "2.0"
              id := req.id
              result := some (.toolCallResult
                [{ type := "text", text := formatWeatherForDisplay weather }]) }
      | .error e =>
        .ok (createErrorResponse req.id (-32603)
          ("Weather service error: " ++ e.message))
    else
      .ok (createErrorResponse req.id (-32602) "Unknown tool")

/-- `generateWeatherReportPrompt(args)` from `mcp.service.ts` (note the
hardcoded correlation id `1` in the returned envelope). -/
def generateWeatherReportPrompt (env : Env) (args : Option ArgsBag) :
    Except Exn MCPResponse :=
  match args with
  | none =>
    .error (.typeError "Cannot read properties of undefined (reading city)")
  | some a =>
    let city := jsOrStr a.city "London"
    let units := jsOrStr a.units "metric"
    match getWeatherByCity env (some city) units with
    | .error e => .error e
    | .ok weather =>
      let weatherText := formatWeatherForDisplay weather
      .ok { jsonrpc := "2.0"
            id := some (.num 1)
            result := some (.promptResult
              ("Comprehensive weather report for " ++ city)
              [ { role := "user"
                  content :=
                    { type := "text"
                      text :=
                        "Please analyze this weather data and provide a comprehensive weather report with insights and recommendations:\n\n"
                        ++ weatherText ++
                        "\n\nInclude:\n- Current conditions summary\n- Comfort level analysis\n- Activity recommendations\n- What to wear suggestions\n- Any weather alerts or notable conditions" } } ]) }

/-- `Promise.all` over a list of already-started fetches: succeeds with the
list of values, or rejects with a rejection of a member (the model picks
the first in list order). -/
def promiseAll : List (Except Exn WeatherData) →
    Except Exn (List WeatherData)
  | [] => .ok []
  | x :: xs =>
    match x with
    | .error e => .error e
    | .ok a =>
      match promiseAll xs with
      | .error e => .error e
      | .ok as => .ok (a :: as)

/-- `generateTravelWeatherAdvicePrompt(args)` from `mcp.service.ts`:
`(args.cities || 'London,Paris').split(',').map(c => c.trim())`, one
fetch per city with units fixed to `'metric'`, all joined by
`Promise.all`; the formatted blocks are joined with `'\n\n'`.  The
returned envelope again hardcodes id `1`. -/
def generateTravelWeatherAdvicePrompt (env : Env) (args : Option ArgsBag) :
    Except Exn MCPResponse :=
  match args with
  | none =>
    .error (.typeError "Cannot read properties of undefined (reading cities)")
  | some a =>
    let cities := (jsSplitComma (jsOrStr a.cities "London,Paris")).map jsTrim
    let travelDate := jsOrStr a.travel_date "today"
    match promiseAll (cities.map fun city =>
        getWeatherByCity env (some city) "metric") with
    | .error e => .error e
    | .ok weatherResults =>
      let weatherTexts :=
        String.intercalate "\n\n" (weatherResults.map formatWeatherForDisplay)
      .ok { jsonrpc := "2.0"
            id := some (.num 1)
            result := some (.promptResult
              ("Travel weather advice for " ++ String.intercalate ", " cities)
              [ { role := "user"
                  content :=
                    { type := "text"
                      text :=
                        "I\x27m planning to travel to these cities " ++ travelDate ++
                        ". Please analyze the weather conditions and provide travel advice:\n\n"
                        ++ weatherTexts ++
                        "\n\nPlease provide:\n- Best city for outdoor activities\n- Packing recommendations\n- Transportation considerations\n- Best times to visit each location\n- Any weather-related travel warnings" } } ]) }

/-- `generateWeatherComparisonPrompt(args)` from `mcp.service.ts`: both
fetches use units `'metric'`; `Promise.all` on the pair is modelled by
sequencing the two `Except` results.  The returned envelope again
hardcodes id `1`. -/
def generateWeatherComparisonPrompt (env : Env) (args : Option ArgsBag) :
    Except Exn MCPResponse :=
  match args with
  | none =>
    .error (.typeError "Cannot read properties of undefined (reading city1)")
  | some a =>
    let city1 := jsOrStr a.city1 "London"
    let city2 := jsOrStr a.city2 "Paris"
    match getWeatherByCity env (some city1) "metric" with
    | .error e => .error e
    | .ok weather1 =>
      match getWeatherByCity env (some city2) "metric" with
      | .error e => .error e
      | .ok weather2 =>
        let weather1Text := formatWeatherForDisplay weather1
        let weather2Text := formatWeatherForDisplay weather2
        .ok { jsonrpc := "2.0"
              id := some (.num 1)
              result := some (.promptResult
                ("Weather comparison between " ++ city1 ++ " and " ++ city2)
                [ { role := "user"
                    content :=
                      { type := "text"
                        text :=
                          "Please compare the weather conditions between these two cities and help me decide which has better conditions:\n\n"
                          ++ "**" ++ city1 ++ ":**\n" ++ weather1Text ++
                          "\n\n" ++ "**" ++ city2 ++ ":**\n" ++ weather2Text ++
                          "\n\nProvide a detailed comparison including:\n- Temperature and comfort differences\n- Precipitation and visibility\n- Wind conditions\n- Overall weather quality\n- Recommendations for activities in each city" } } ]) }

/-- `handlePromptsGet(request)` from `mcp.service.ts`: destructures
`request.params` (throws on `undefined`), then switches on the prompt
name; unknown names yield `-32602` / `"Unknown prompt"`.  Generator
failures are not caught here and propagate as rejections. -/
def handlePromptsGet (env : Env) (req : MCPRequest) :
    Except Exn MCPResponse :=
  match req.params with
  | none =>
    .error (.typeError "Cannot destructure property name of undefined")
  | some p =>
    if p.name = some "weather-report" then
      generateWeatherReportPrompt env p.arguments
    else if p.name = some "travel-weather-advice" then
      generateTravelWeatherAdvicePrompt env p.arguments
    else if p.name = some "weather-comparison" then
      generateWeatherComparisonPrompt env p.arguments
    else
      .ok (createErrorResponse req.id (-32602) "Unknown prompt")

/-- The `try { switch ... }` body of `handleRequest`.  The outer `Except`
is a synchronous throw inside the `try` block (none of the arms throws
synchronously: calling an async function never does); the inner `Except`
is the promise each arm returns, which the source does NOT await. -/
def handleRequestTry (env : Env) (req : MCPRequest) :
    Except Exn (Except Exn MCPResponse) :=
  if req.method = "initialize" then .ok (.ok (handleInit req))
  else if req.method = "tools/list" then .ok (.ok (handleToolsList req))
  else if req.method = "tools/call" then .ok (handleToolsCall env req)
  else if req.method = "prompts/list" then .ok (.ok (handlePromptsList req))
  else if req.method = "prompts/get" then .ok (handlePromptsGet env req)
  else .ok (.ok (createErrorResponse req.id (-32601) "Method not found"))

/-- `handleRequest(request)` from `mcp.service.ts`, observed at its async
boundary (what `await handleRequest(request)` yields): the `catch` block
converts only synchronous throws to the `-32603` envelope; the promises
returned by the `tools/call` and `prompts/get` arms are returned without
`await`, so their rejections bypass the `catch` and reject the promise of
`handleRequest` itself. -/
def handleRequest (env : Env) (req : MCPRequest) : Except Exn MCPResponse :=
  match handleRequestTry env req with
  | .ok promise => promise
  | .error _ =>
    .ok (createErrorResponse req.id (-32603) "Internal error")

/-- `{content, isError?}` result of the stdio-channel CallTool handler. -/
structure StdioToolOutput where
  content : List TextContent
  isError : Option Bool := none
deriving DecidableEq

/-- The stdio-channel CallTool handler from `mcp-stdio.ts`
(`setupToolHandlers`): on a fetch failure it returns a SUCCESSFUL result
flagged `isError: true`; on an unrecognized tool name it throws
`Error("Unknown tool: " + name)` out of the handler. -/
def stdioCallTool (env : Env) (p : ParamsObj) :
    Except Exn StdioToolOutput :=
  if p.name = some "get-weather" then
    match toolCallFetch env p.arguments with
    | .ok weather =>
      .ok { content :=
              [{ type := "text", text := formatWeatherForDisplay weather }] }
    | .error e =>
      .ok { content :=
              [{ type := "text"
                 text := "Error getting weather: " ++ e.message }]
            isError := some true }
  else
    .error (.jsError ("Unknown tool: " ++
      (match p.name with | none => "undefined" | some s => s)))

/-- The demo-mode environment (no `OPENWEATHER_API_KEY` configured) at a
given clock reading; the network oracle is inert because the demo key
short-circuits to mock data before it is consulted. -/
def demoEnv (now : String) : Env :=
  { apiKey := "demo-key"
    now := now
    api := fun _ _ => .error (.jsError "Failed to fetch weather data") }

/-- A fixed demo environment for closed evaluations. -/
def env0 : Env := demoEnv "2025-01-01T00:00:00.000Z"

-- Decidable equality for the async observation type, used by closed
-- evaluations.
deriving instance DecidableEq for Except

/-- `s` starts with `pre`. -/
def strStarts (s pre : String) : Prop := ∃ rest, s = pre ++ rest

/-- `s` contains `pat` as a contiguous substring. -/
def strContains (s pat : String) : Prop := ∃ a b, s = a ++ pat ++ b

/-- Shorthand for a `tools/call` request envelope. -/
def toolsCallReq (id : Option JsonId) (p : ParamsObj) : MCPRequest :=
  { id := id, method := "tools/call", params := some p }

/-- Shorthand for a `prompts/get` request envelope. -/
def promptsGetReq (id : Option JsonId) (p : ParamsObj) : MCPRequest :=
  { id := id, method := "prompts/get", params := some p }

/- ------------------------------------------------------------------ -/
/- Helper lemmas                                                       -/
/- ------------------------------------------------------------------ -/

theorem strStarts_of_split (p rest t : String) : strStarts ((p ++ rest) ++ t) p :=
  ⟨rest ++ t, String.append_assoc p rest t⟩

theorem strContains_of_split (a p b t : String) :
    strContains (((a ++ p) ++ b) ++ t) p :=
  ⟨a, b ++ t, by simp only [String.append_assoc]⟩

/-- If one of the joined promises is rejected, the `Promise.all` join is
rejected. -/
theorem promiseAll_error_of_mem {xs : List (Except Exn WeatherData)} {e : Exn}
    (hx : Except.error e ∈ xs) : ∃ e2, promiseAll xs = .error e2 := by
  induction xs with
  | nil => cases hx
  | cons y ys ih =>
    match y, hx with
    | .error e3, _ => exact ⟨e3, rfl⟩
    | .ok a, hx =>
      rcases List.mem_cons.mp hx with h | h
      · cases h
      · obtain ⟨e2, h2⟩ := ih h
        exact ⟨e2, by simp [promiseAll, h2]⟩

/- ------------------------------------------------------------------ -/
/- Claim theorems                                                      -/
/- ------------------------------------------------------------------ -/

/-- C10: for any `tools/call` or `prompts/get` request whose `params` field
is absent, `handleRequest` does not return a response envelope: the
unconditional destructuring of `request.params` throws inside an async
handler whose promise is returned from the dispatch try-block without
being awaited, so the rejection escapes `handleRequest` instead of being
converted to a `-32603` error. -/
theorem absent_params_escapes (env : Env) (id : Option JsonId) :
    (∃ e, handleRequest env { id := id, method := "tools/call" } = .error e)
  ∧ (∃ e, handleRequest env { id := id, method := "prompts/get" } = .error e) :=
  ⟨⟨_, rfl⟩, ⟨_, rfl⟩⟩

/-- C1 (code bug): `handleRequest` is NOT total.  At the concrete failing
input `{method: "tools/call", id: 1}` with no `params`, the rejection of
the un-awaited `handleToolsCall` promise escapes the boundary as an
exception instead of being converted to a `-32603` error envelope. -/
theorem handle_totality_violated :
    handleRequest env0 { id := some (.num 1), method := "tools/call" }
      = .error (.typeError "Cannot destructure property name of undefined") :=
  rfl

/-- C2 (code bug): the response id does NOT always mirror the request id.
At the concrete failing input, a `prompts/get` of `weather-report` with
request id `7` is answered with the hardcoded id `1`. -/
theorem prompt_response_id_hardcoded :
    ∃ resp, handleRequest env0 (promptsGetReq (some (.num 7))
        { name := some "weather-report"
          arguments := some { city := some "London" } }) = .ok resp
      ∧ resp.id = some (.num 1)
      ∧ decide (resp.id = some (.num 7)) = false := by
  refine ⟨_, rfl, rfl, rfl⟩

/-- C3: every request whose method is not one of the five recognized
methods is answered with an error envelope with code `-32601` and message
`"Method not found"`. -/
theorem unknown_method_not_found (env : Env) (req : MCPRequest)
    (h : req.method ∉ (["initialize", "tools/list", "tools/call",
      "prompts/list", "prompts/get"] : List String)) :
    handleRequest env req
      = .ok (createErrorResponse req.id (-32601) "Method not found") := by
  simp only [List.mem_cons, List.not_mem_nil, or_false, not_or] at h
  obtain ⟨h1, h2, h3, h4, h5⟩ := h
  simp [handleRequest, handleRequestTry, h1, h2, h3, h4, h5]

/-- Witness for C3 at the concrete method `"bogus"`. -/
theorem unknown_method_not_found_witness :
    ("bogus" : String) ∉ (["initialize", "tools/list", "tools/call",
      "prompts/list", "prompts/get"] : List String)
  ∧ handleRequest env0 { id := some (.num 1), method := "bogus" }
      = .ok (createErrorResponse (some (.num 1)) (-32601) "Method not found") :=
  ⟨by decide, unknown_method_not_found env0 _ (by decide)⟩

/-- C9: the list handlers are stateless and static — the response to a
`tools/list` (resp. `prompts/list`) request is the same fixed catalog
envelope whatever the environment, the tool catalog has exactly one
element and the prompt catalog exactly three. -/
theorem catalogs_static (env env2 : Env) (rt rp : MCPRequest)
    (ht : rt.method = "tools/list") (hp : rp.method = "prompts/list") :
    handleRequest env rt
      = .ok { jsonrpc := "2.0", id := rt.id
              result := some (.toolsList getAvailableTools) }
  ∧ handleRequest env2 rt = handleRequest env rt
  ∧ handleRequest env rp
      = .ok { jsonrpc := "2.0", id := rp.id
              result := some (.promptsList getAvailablePrompts) }
  ∧ handleRequest env2 rp = handleRequest env rp
  ∧ getAvailableTools.length = 1
  ∧ getAvailablePrompts.length = 3 := by
  obtain ⟨jr1, id1, m1, p1⟩ := rt
  obtain ⟨jr2, id2, m2, p2⟩ := rp
  dsimp only at ht hp
  subst ht
  subst hp
  exact ⟨rfl, rfl, rfl, rfl, rfl, rfl⟩

/-- Witness for C9 at concrete list requests. -/
theorem catalogs_static_witness :
    ({ id := some (.num 1), method := "tools/list" } : MCPRequest).method
        = "tools/list"
  ∧ handleRequest env0 { id := some (.num 1), method := "tools/list" }
      = .ok { jsonrpc := "2.0", id := some (.num 1)
              result := some (.toolsList getAvailableTools) } :=
  ⟨rfl, (catalogs_static env0 env0 { id := some (.num 1), method := "tools/list" }
      { id := some (.num 2), method := "prompts/list" } rfl rfl).1⟩

/-- C4: a `tools/call` whose `params.name` is not `"get-weather"` is
answered by the HTTP router with an error envelope `-32602` /
`"Unknown tool"`, while the stdio-channel variant instead raises an
unhandled error for the same input. -/
theorem unknown_tool_rejected (env : Env) (id : Option JsonId) (p : ParamsObj)
    (h : p.name ≠ some "get-weather") :
    handleRequest env (toolsCallReq id p)
      = .ok (createErrorResponse id (-32602) "Unknown tool")
  ∧ stdioCallTool env p
      = .error (.jsError ("Unknown tool: " ++
          (match p.name with | none => "undefined" | some s => s))) := by
  constructor
  · simp [handleRequest, handleRequestTry, toolsCallReq, handleToolsCall, h]
  · simp [stdioCallTool, h]

/-- Witness for C4 at the concrete tool name `"unknown-tool"` with empty
arguments. -/
theorem unknown_tool_rejected_witness :
    ({ name := some "unknown-tool", arguments := some {} } : ParamsObj).name
        ≠ some "get-weather"
  ∧ handleRequest env0 (toolsCallReq (some (.num 1))
        { name := some "unknown-tool", arguments := some {} })
      = .ok (createErrorResponse (some (.num 1)) (-32602) "Unknown tool") :=
  ⟨by decide, (unknown_tool_rejected env0 (some (.num 1))
      { name := some "unknown-tool", arguments := some {} } (by decide)).1⟩

/-- C6: a `tools/call` of `get-weather` whose `city` argument trims to the
empty string is rejected by the weather client; the HTTP router surfaces
the failure as a `-32603` error envelope embedding the failure message,
the stdio variant as a successful envelope flagged `isError`; neither
crashes. -/
theorem empty_city_rejected (env : Env) (id : Option JsonId) (c u : String)
    (hc : jsTrim c = "") :
    handleRequest env (toolsCallReq id
        { name := some "get-weather"
          arguments := some { city := some c, units := some u } })
      = .ok (createErrorResponse id (-32603)
          "Weather service error: City name is required")
  ∧ stdioCallTool env
        { name := some "get-weather"
          arguments := some { city := some c, units := some u } }
      = .ok { content := [{ type := "text"
                            text := "Error getting weather: City name is required" }]
              isError := some true } := by
  have hcond : (c = "" ∨ (jsTrim c).length = 0) := Or.inr (by rw [hc]; rfl)
  constructor
  · simp [handleRequest, handleRequestTry, toolsCallReq, handleToolsCall,
      toolCallFetch, getWeatherByCity, hcond, Exn.message, createErrorResponse]
  · simp [stdioCallTool, toolCallFetch, getWeatherByCity, hcond, Exn.message]

/-- Witness for C6 at the concrete arguments `city: ""`, `units:
"imperial"`. -/
theorem empty_city_rejected_witness :
    jsTrim "" = ""
  ∧ handleRequest env0 (toolsCallReq (some (.num 1))
        { name := some "get-weather"
          arguments := some { city := some "", units := some "imperial" } })
      = .ok (createErrorResponse (some (.num 1)) (-32603)
          "Weather service error: City name is required") :=
  ⟨rfl, (empty_city_rejected env0 (some (.num 1)) "" "imperial" rfl).1⟩

set_option maxRecDepth 8000 in
/-- C5: with no API credential configured (mock data path), a `tools/call`
of `get-weather` for city `"London"` with `units` absent succeeds with a
single text-content item whose text starts with
`"Weather in London, XX:"` and reports `"Temperature: 22°C"` (the metric
mock temperature). -/
theorem get_weather_mock_london (now : String)
    (api : String → String → Except Exn WeatherData) (id : Option JsonId) :
    ∃ t, handleRequest { apiKey := "demo-key", now := now, api := api }
        (toolsCallReq id
          { name := some "get-weather"
            arguments := some { city := some "London" } })
      = .ok { jsonrpc := "2.0", id := id
              result := some (.toolCallResult [{ type := "text", text := t }]) }
      ∧ strStarts t "Weather in London, XX:"
      ∧ strContains t "Temperature: 22°C" := by
  refine ⟨formatWeatherForDisplay
    (getMockWeatherData { apiKey := "demo-key", now := now, api := api }
      "London" "metric"), rfl, ?_, ?_⟩
  · show strStarts (formatWeatherHead (getMockWeatherData
      { apiKey := "demo-key", now := now, api := api } "London" "metric") ++ now) _
    rw [show formatWeatherHead (getMockWeatherData
        { apiKey := "demo-key", now := now, api := api } "London" "metric")
      = formatWeatherHead (getMockWeatherData env0 "London" "metric") from rfl]
    rw [show formatWeatherHead (getMockWeatherData env0 "London" "metric")
      = "Weather in London, XX:" ++
        "\nTemperature: 22°C (feels like 24°C)\nCondition: partly cloudy\nHumidity: 65%\nPressure: 1013 hPa\nWind: 5.2 m/s at 180°\nVisibility: 10 km\nLast updated: "
      from by decide]
    exact strStarts_of_split _ _ _
  · show strContains (formatWeatherHead (getMockWeatherData
      { apiKey := "demo-key", now := now, api := api } "London" "metric") ++ now) _
    rw [show formatWeatherHead (getMockWeatherData
        { apiKey := "demo-key", now := now, api := api } "London" "metric")
      = formatWeatherHead (getMockWeatherData env0 "London" "metric") from rfl]
    rw [show formatWeatherHead (getMockWeatherData env0 "London" "metric")
      = ("Weather in London, XX:\n" ++ "Temperature: 22°C") ++
        " (feels like 24°C)\nCondition: partly cloudy\nHumidity: 65%\nPressure: 1013 hPa\nWind: 5.2 m/s at 180°\nVisibility: 10 km\nLast updated: "
      from by decide]
    exact strContains_of_split _ _ _ _

/-- C7: a `prompts/get` of `weather-comparison` fetches both cities with
units `"metric"` (whatever `units` argument is supplied — the result is
fully determined by the two metric fetches, which appear as the only
hypotheses), and the single user message text contains a `**<city1>:**`
section and a `**<city2>:**` section, each followed by the
corresponding formatted weather block. -/
theorem weather_comparison_metric_sections (env : Env) (id : Option JsonId)
    (a : ArgsBag) (w1 w2 : WeatherData)
    (h1 : getWeatherByCity env (some (jsOrStr a.city1 "London")) "metric" = .ok w1)
    (h2 : getWeatherByCity env (some (jsOrStr a.city2 "Paris")) "metric" = .ok w2) :
    ∃ t, handleRequest env (promptsGetReq id
        { name := some "weather-comparison", arguments := some a })
      = .ok { jsonrpc := "2.0", id := some (.num 1)
              result := some (.promptResult
                ("Weather comparison between " ++ jsOrStr a.city1 "London" ++
                  " and " ++ jsOrStr a.city2 "Paris")
                [{ role := "user", content := { type := "text", text := t } }]) }
      ∧ strContains t ("**" ++ jsOrStr a.city1 "London" ++ ":**\n" ++
          formatWeatherForDisplay w1)
      ∧ strContains t ("**" ++ jsOrStr a.city2 "Paris" ++ ":**\n" ++
          formatWeatherForDisplay w2) := by
  have hred : handleRequest env (promptsGetReq id
      { name := some "weather-comparison", arguments := some a })
    = generateWeatherComparisonPrompt env (some a) := rfl
  refine ⟨"Please compare the weather conditions between these two cities and help me decide which has better conditions:\n\n"
      ++ "**" ++ jsOrStr a.city1 "London" ++ ":**\n"
      ++ formatWeatherForDisplay w1 ++ "\n\n"
      ++ "**" ++ jsOrStr a.city2 "Paris" ++ ":**\n"
      ++ formatWeatherForDisplay w2 ++
      "\n\nProvide a detailed comparison including:\n- Temperature and comfort differences\n- Precipitation and visibility\n- Wind conditions\n- Overall weather quality\n- Recommendations for activities in each city",
      ?_, ?_, ?_⟩
  · rw [hred]
    simp only [generateWeatherComparisonPrompt, h1, h2]
  · exact ⟨"Please compare the weather conditions between these two cities and help me decide which has better conditions:\n\n",
      "\n\n" ++ "**" ++ jsOrStr a.city2 "Paris" ++ ":**\n"
        ++ formatWeatherForDisplay w2 ++
        "\n\nProvide a detailed comparison including:\n- Temperature and comfort differences\n- Precipitation and visibility\n- Wind conditions\n- Overall weather quality\n- Recommendations for activities in each city",
      by simp only [String.append_assoc]⟩
  · exact ⟨"Please compare the weather conditions between these two cities and help me decide which has better conditions:\n\n"
        ++ "**" ++ jsOrStr a.city1 "London" ++ ":**\n"
        ++ formatWeatherForDisplay w1 ++ "\n\n",
      "\n\nProvide a detailed comparison including:\n- Temperature and comfort differences\n- Precipitation and visibility\n- Wind conditions\n- Overall weather quality\n- Recommendations for activities in each city",
      by simp only [String.append_assoc]⟩

/-- Witness for C7 at the concrete cities Paris and Tokyo (with a stray
`units: "imperial"` argument, which does not affect the result). -/
theorem weather_comparison_metric_sections_witness :
    (getWeatherByCity env0 (some (jsOrStr (some "Paris") "London")) "metric"
        = .ok (getMockWeatherData env0 "Paris" "metric"))
  ∧ (getWeatherByCity env0 (some (jsOrStr (some "Tokyo") "Paris")) "metric"
        = .ok (getMockWeatherData env0 "Tokyo" "metric"))
  ∧ (∃ t, handleRequest env0 (promptsGetReq (some (.num 1))
        { name := some "weather-comparison"
          arguments := some { units := some "imperial"
                              city1 := some "Paris"
                              city2 := some "Tokyo" } })
      = .ok { jsonrpc := "2.0", id := some (.num 1)
              result := some (.promptResult
                ("Weather comparison between " ++ jsOrStr (some "Paris") "London" ++
                  " and " ++ jsOrStr (some "Tokyo") "Paris")
                [{ role := "user", content := { type := "text", text := t } }]) }
      ∧ strContains t ("**" ++ jsOrStr (some "Paris") "London" ++ ":**\n" ++
          formatWeatherForDisplay (getMockWeatherData env0 "Paris" "metric"))
      ∧ strContains t ("**" ++ jsOrStr (some "Tokyo") "Paris" ++ ":**\n" ++
          formatWeatherForDisplay (getMockWeatherData env0 "Tokyo" "metric"))) :=
  ⟨rfl, rfl, weather_comparison_metric_sections env0 (some (.num 1))
    { units := some "imperial", city1 := some "Paris", city2 := some "Tokyo" }
    (getMockWeatherData env0 "Paris" "metric")
    (getMockWeatherData env0 "Tokyo" "metric") rfl rfl⟩

/-- C8: a `prompts/get` of `travel-weather-advice` splits the `cities`
argument on commas and trims each entry, issues one fetch per resulting
city with units fixed to `"metric"` (joined by `Promise.all`), fails the
whole request when the fetch of any one listed city fails, and on
success joins the per-city formatted blocks with a blank line inside the
single user message. -/
theorem travel_advice_all_or_nothing (env : Env) (id : Option JsonId)
    (a : ArgsBag) (cities : List String)
    (hcs : cities = (jsSplitComma (jsOrStr a.cities "London,Paris")).map jsTrim) :
    (∀ ws, promiseAll (cities.map fun c => getWeatherByCity env (some c) "metric")
        = .ok ws →
      handleRequest env (promptsGetReq id
          { name := some "travel-weather-advice", arguments := some a })
        = .ok { jsonrpc := "2.0", id := some (.num 1)
                result := some (.promptResult
                  ("Travel weather advice for " ++ String.intercalate ", " cities)
                  [{ role := "user"
                     content :=
                       { type := "text"
                         text :=
                           "I\x27m planning to travel to these cities "
                           ++ jsOrStr a.travel_date "today"
                           ++ ". Please analyze the weather conditions and provide travel advice:\n\n"
                           ++ String.intercalate "\n\n" (ws.map formatWeatherForDisplay)
                           ++ "\n\nPlease provide:\n- Best city for outdoor activities\n- Packing recommendations\n- Transportation considerations\n- Best times to visit each location\n- Any weather-related travel warnings" } }]) })
  ∧ (∀ c e, c ∈ cities → getWeatherByCity env (some c) "metric" = .error e →
      ∃ e2, handleRequest env (promptsGetReq id
          { name := some "travel-weather-advice", arguments := some a })
        = .error e2) := by
  subst hcs
  have hred : handleRequest env (promptsGetReq id
      { name := some "travel-weather-advice", arguments := some a })
    = generateTravelWeatherAdvicePrompt env (some a) := rfl
  constructor
  · intro ws hws
    rw [hred]
    simp only [generateTravelWeatherAdvicePrompt, hws]
  · intro c e hc he
    have hmem : Except.error e ∈ ((jsSplitComma
        (jsOrStr a.cities "London,Paris")).map jsTrim).map
          (fun c2 => getWeatherByCity env (some c2) "metric") := by
      rw [← he]
      exact List.mem_map_of_mem _ hc
    obtain ⟨e2, h2⟩ := promiseAll_error_of_mem hmem
    refine ⟨e2, ?_⟩
    rw [hred]
    simp only [generateTravelWeatherAdvicePrompt, h2]

set_option maxRecDepth 8000 in
/-- Witness for C8 at the concrete argument `cities: "A,B,C"` (three
cities, all succeeding on the mock path). -/
theorem travel_advice_all_or_nothing_witness :
    ((["A", "B", "C"] : List String)
        = (jsSplitComma (jsOrStr (some "A,B,C") "London,Paris")).map jsTrim)
  ∧ (promiseAll ((["A", "B", "C"] : List String).map
        fun c => getWeatherByCity env0 (some c) "metric")
      = .ok [getMockWeatherData env0 "A" "metric",
             getMockWeatherData env0 "B" "metric",
             getMockWeatherData env0 "C" "metric"])
  ∧ handleRequest env0 (promptsGetReq (some (.num 1))
        { name := some "travel-weather-advice"
          arguments := some { cities := some "A,B,C" } })
      = .ok { jsonrpc := "2.0", id := some (.num 1)
              result := some (.promptResult
                ("Travel weather advice for "
                  ++ String.intercalate ", " (["A", "B", "C"] : List String))
                [{ role := "user"
                   content :=
                     { type := "text"
                       text :=
                         "I\x27m planning to travel to these cities "
                         ++ jsOrStr none "today"
                         ++ ". Please analyze the weather conditions and provide travel advice:\n\n"
                         ++ String.intercalate "\n\n"
                             ([getMockWeatherData env0 "A" "metric",
                               getMockWeatherData env0 "B" "metric",
                               getMockWeatherData env0 "C" "metric"].map
                                 formatWeatherForDisplay)
                         ++ "\n\nPlease provide:\n- Best city for outdoor activities\n- Packing recommendations\n- Transportation considerations\n- Best times to visit each location\n- Any weather-related travel warnings" } }]) } :=
  ⟨rfl, rfl,
    (travel_advice_all_or_nothing env0 (some (.num 1))
        { cities := some "A,B,C" } ["A", "B", "C"] rfl).1
      [getMockWeatherData env0 "A" "metric",
       getMockWeatherData env0 "B" "metric",
       getMockWeatherData env0 "C" "metric"] rfl⟩

/-- Witness for C10 at a concrete environment and id. -/
theorem absent_params_escapes_witness :
    (∃ e, handleRequest env0 { id := some (.num 1), method := "tools/call" }
        = .error e)
  ∧ (∃ e, handleRequest env0 { id := some (.num 1), method := "prompts/get" }
        = .error e) :=
  absent_params_escapes env0 (some (.num 1))

set_option maxRecDepth 8000 in
/-- Witness for C5 at the fixed demo environment. -/
theorem get_weather_mock_london_witness :
    ∃ t, handleRequest env0 (toolsCallReq (some (.num 1))
          { name := some "get-weather"
            arguments := some { city := some "London" } })
      = .ok { jsonrpc := "2.0", id := some (.num 1)
              result := some (.toolCallResult [{ type := "text", text := t }]) }
      ∧ strStarts t "Weather in London, XX:"
      ∧ strContains t "Temperature: 22°C" :=
  get_weather_mock_london "2025-01-01T00:00:00.000Z" env0.api (some (.num 1))

end WeatherMCP

